import Mathlib

/-!
# Verification of the Ella Rises data-model and route-handler layer

Shallow embedding of `src/app.js` (Express + Knex + PostgreSQL).  The
database is modelled as in-memory lists of row records, one list per
table; each route handler becomes a pure function from the database
state (plus the parsed form/request data) to a new database state and a
`Response` (redirect target plus flash message), mirroring the
`req.session.error` / `req.session.success` + `res.redirect` pattern of
the source.

Modelling conventions, fixed once here:

* Form fields arrive in JS as strings, with the empty string and an
  absent field both falsy; the handlers in `app.js` treat the two alike
  at every site we model (`email || null`, `if (!username)`,
  `achieved_date || today`, ...), so a text field is modelled as a
  `String` with `""` playing the role of missing/falsy.  Numeric form
  fields that the source passes through `Number(...)` are modelled as
  the parsed value: `amount` as a rational, `participant_id` /
  `milestone_id` as `Option Nat` (`none` = empty string, `some n` = the
  decimal string of `n`, so the string "0" is *truthy* while the number
  `0` is falsy, exactly as in JS).  Non-numeric garbage (JS `NaN`) is
  outside the modelled input space; no claim depends on it.
* Serial primary keys (`participant_id`, `user_id`) are modelled by
  explicit `next...Id` counters in the state; `insert` appends to the
  table list, `where(...).del()` keeps the non-matching rows,
  `update` maps over the rows, `.first()` is `List.find?`.
* `count(*)` on a PostgreSQL bigint comes back through the `pg` driver
  as a decimal *string*; `app.js` itself acknowledges this by writing
  `parseInt(donationCount.count)` at its other count sites.  Where the
  source parses the count we model the numeric value directly; at the
  one site that compares the raw value with `===` (event deletion) we
  keep the JS value and JS strict equality explicitly.
* `max(donation_number)` on an integer column is returned by `pg` as a
  number; `(max || 0) + 1` is modelled as `foldr max 0` over the
  scope's numbers, plus one.
* Rows carry exactly the columns that the modelled handlers read or
  write; columns never touched by any modelled operation (timestamps,
  event locations, ...) are projected away.
* `bcrypt.hash` is an external library; it is modelled as an abstract
  tagging function (no claim depends on its value, only on where the
  result does or does not flow).
-/

namespace EllaRising

/-- A flash message as stored in `req.session.success` / `req.session.error`. -/
inductive Flash where
  | success : String → Flash
  | error : String → Flash
deriving DecidableEq, Repr

/-- The observable outcome of a handler: the redirect target and the flash
message it sets. -/
structure Response where
  path : String
  flash : Flash
deriving DecidableEq, Repr

/-- Row of the `participant` table (columns written by the modelled routes). -/
structure Participant where
  participant_id : Nat
  participant_first_name : String
  participant_last_name : String
  participant_email : Option String
  participant_phone : Option String
  participant_city : Option String
  participant_state : Option String
  participant_zip : Option String
  participant_school_or_employer : Option String
  participant_field_of_interest : Option String
  participant_role : String
deriving DecidableEq, Repr

/-- Row of the `donation` table.  The identity is the composite pair
`(participant_id, donation_number)`; `participant_id` is nullable
(`none` = SQL NULL, the admin route's anonymous marker). -/
structure Donation where
  participant_id : Option Nat
  donation_number : Nat
  donation_amount : ℚ
  donation_date : String
deriving DecidableEq, Repr

/-- Row of the `milestone` table. -/
structure Milestone where
  milestone_id : Nat
  milestone_title : String
  milestone_description : String
deriving DecidableEq, Repr

/-- Row of the `participant_milestone` link table. -/
structure ParticipantMilestone where
  participant_id : Nat
  milestone_id : Nat
  milestone_date : String
deriving DecidableEq, Repr

/-- Row of the `event` (template) table; only the columns the modelled
deletion route touches. -/
structure EventTemplate where
  event_id : Nat
  event_name : String
deriving DecidableEq, Repr

/-- Row of the `event_instance` table; only the columns the modelled
deletion route touches. -/
structure EventInstance where
  event_instance_id : Nat
  event_id : Nat
deriving DecidableEq, Repr

/-- Row of the `survey_response` table.  The app only ever inserts a row
when the submitted answer is truthy (`if (satisfaction) responses.push(...)`),
so `question_response` is a present integer. -/
structure SurveyResponse where
  survey_submission_id : Nat
  question_number : Nat
  question_response : Int
deriving DecidableEq, Repr

/-- Row of the `users` table. -/
structure User where
  user_id : Nat
  email : Option String
  username : String
  password : String
  role : String
deriving DecidableEq, Repr

/-- The database state: one list per table (list order = table order, as
used by unordered selects), plus the serial counters. -/
structure DB where
  participant : List Participant
  donation : List Donation
  milestone : List Milestone
  participant_milestone : List ParticipantMilestone
  event : List EventTemplate
  event_instance : List EventInstance
  survey_response : List SurveyResponse
  users : List User
  nextParticipantId : Nat
  nextUserId : Nat
deriving DecidableEq, Repr

/-- The empty database. -/
def emptyDB : DB :=
  { participant := [], donation := [], milestone := [], participant_milestone := []
    event := [], event_instance := [], survey_response := [], users := []
    nextParticipantId := 1, nextUserId := 1 }

/-- `bcrypt.hash(s, 10)`: external library, modelled abstractly.  No claim
depends on the hash value, only on where it flows. -/
def bcryptHash (password : String) : String := "bcrypt$" ++ password

/-- JS `String.prototype.trim`: strip whitespace from both ends.  Defined by
structural recursion over the character list (rather than the byte-position
based `String.trim` of the Lean library) so that concrete witnesses reduce
inside the kernel. -/
def jsTrim (s : String) : String :=
  String.mk (((s.data.dropWhile Char.isWhitespace).reverse.dropWhile Char.isWhitespace).reverse)

/-- JS `String.prototype.toLowerCase`, per character. -/
def jsToLower (s : String) : String :=
  String.mk (s.data.map Char.toLower)

/-- The identity attached to `req.session.user` after login. -/
structure SessionUser where
  user_id : Nat
  username : String
  role : String
deriving DecidableEq, Repr

/-- `requireManager` middleware (app.js:146-156): no session user → redirect
to `/login`; role ≠ 'admin' → error flash and redirect to `/dashboard`;
otherwise fall through to the handler (`none`). -/
def requireManager (sess : Option SessionUser) : Option Response :=
  match sess with
  | none => some ⟨"/login", .error "Please log in to access that page."⟩
  | some u =>
      if u.role ≠ "admin" then
        some ⟨"/dashboard", .error "You must be an admin to do that."⟩
      else
        none

/-! ## Donation routes (`POST /donations/public`, `POST /donations`) -/

/-- The donation rows of the given participant scope, in table order:
`s = some pid` models `where participant_id = pid`, `s = none` models
`whereNull participant_id`. -/
def scopeDonations (db : DB) (s : Option Nat) : List Donation :=
  db.donation.filter (fun d => d.participant_id == s)

/-- The `donation_number`s of a participant scope, in table order. -/
def scopeNumbers (db : DB) (s : Option Nat) : List Nat :=
  (scopeDonations db s).map (fun d => d.donation_number)

/-- `max(donation_number)` over a scope, with the source's
`(maxDonation?.max_num || 0)` null-to-zero coercion: SQL `max` of an empty
set is NULL, which `|| 0` turns into `0`. -/
def scopeMax (db : DB) (s : Option Nat) : Nat :=
  (scopeNumbers db s).foldr max 0

/-- Parsed form of `POST /donations/public`.  `donor_email = ""` is the
falsy (absent) case of `if (donor_email)`; `amount` is the JS
`Number(amount)` value (the `!amount` empty-field case coincides with
`Number('') = 0 ≤ 0` and is rejected by the same guard). -/
structure PublicDonationForm where
  donor_first_name : String
  donor_last_name : String
  donor_email : String
  amount : ℚ
deriving DecidableEq, Repr

/-- The fresh `'donor'`-role participant row inserted by the public
donation route for a first-time donor email: names trimmed, email
normalized, every other contact column left null. -/
def newDonorRow (db : DB) (first_name last_name normalizedEmail : String) : Participant :=
  { participant_id := db.nextParticipantId
    participant_first_name := first_name
    participant_last_name := last_name
    participant_email := some normalizedEmail
    participant_phone := none, participant_city := none
    participant_state := none, participant_zip := none
    participant_school_or_employer := none
    participant_field_of_interest := none
    participant_role := "donor" }

/-- The find-or-create step of `POST /donations/public` (app.js:2247-2302):
look the normalized email up in `participant`; on a miss insert a fresh
`'donor'` row and use its id.  Returns the updated state and the resolved
`participant_id`.  (The source's `returning('participant_id')` fallback
re-query selects the same row that was just inserted, so both of its
branches resolve to the new row's id.) -/
def findOrCreateDonor (db : DB) (first_name last_name normalizedEmail : String) :
    DB × Nat :=
  match db.participant.find? (fun p => p.participant_email == some normalizedEmail) with
  | some existingParticipant => (db, existingParticipant.participant_id)
  | none =>
      ({ db with participant := db.participant ++ [newDonorRow db first_name last_name normalizedEmail]
                 nextParticipantId := db.nextParticipantId + 1 },
       db.nextParticipantId)

/-- `POST /donations/public` (app.js:2219-2329).  Validation rejects a
non-positive amount and blank names; an absent email falls back to the
anonymous participant record, id `0`; then the next `donation_number`
for the resolved scope is `max + 1` and the donation row is inserted.
`today` models `new Date().toISOString().slice(0, 10)`. -/
def postDonationsPublic (db : DB) (f : PublicDonationForm) (today : String) :
    DB × Response :=
  if f.amount ≤ 0 then
    (db, ⟨"/donate", .error "Please enter a valid donation amount."⟩)
  else if (jsTrim f.donor_first_name) = "" then
    (db, ⟨"/donate", .error "Please enter your first name."⟩)
  else if (jsTrim f.donor_last_name) = "" then
    (db, ⟨"/donate", .error "Please enter your last name."⟩)
  else
    let step :=
      if f.donor_email = "" then (db, 0)
      else findOrCreateDonor db (jsTrim f.donor_first_name) (jsTrim f.donor_last_name)
             (jsToLower (jsTrim f.donor_email))
    let db1 := step.1
    let participant_id := step.2
    let donation_number := scopeMax db1 (some participant_id) + 1
    ({ db1 with donation := db1.donation ++
        [{ participant_id := some participant_id, donation_number
           donation_amount := f.amount, donation_date := today }] },
     ⟨"/donate", .success "Thank you for your support!"⟩)

/-- Parsed form of `POST /donations` (admin).  `participant_id = none` is
the empty form string (JS falsy, `partId = null`); `some n` is the decimal
string of `n` — note that the string "0" is truthy, so `some 0` is a
representable input distinct from `none`. -/
structure AdminDonationForm where
  participant_id : Option Nat
  amount : ℚ
  date : String
deriving DecidableEq, Repr

/-- `POST /donations` (app.js:2412-2448).  `partId` is
`participant_id ? Number(participant_id) : null`.  The max-query scope is
chosen by JS truthiness of the *number* `partId` (`if (partId)`), under
which `0` is falsy and selects the `whereNull` query — while the insert
stores `partId` itself.  So a submitted participant id of `0` reads its
next number from the NULL scope but writes the row into scope `0`. -/
def postDonations (db : DB) (f : AdminDonationForm) (today : String) :
    DB × Response :=
  let partId : Option Nat := f.participant_id
  let maxScope : Option Nat :=
    match partId with
    | some n => if n ≠ 0 then some n else none
    | none => none
  let donation_number := scopeMax db maxScope + 1
  ({ db with donation := db.donation ++
      [{ participant_id := partId, donation_number
         donation_amount := f.amount
         donation_date := if f.date ≠ "" then f.date else today }] },
   ⟨"/donations", .success "Donation recorded."⟩)

/-- One call of either donation-creation operation, with its request data. -/
inductive DonationStep where
  | publicStep : PublicDonationForm → String → DonationStep
  | adminStep : AdminDonationForm → String → DonationStep
deriving DecidableEq, Repr

/-- State reached after one donation-creation call. -/
def runDonationStep (db : DB) : DonationStep → DB
  | .publicStep f today => (postDonationsPublic db f today).1
  | .adminStep f today => (postDonations db f today).1

/-- State reached after a sequence of donation-creation calls. -/
def runDonationSteps (db : DB) (steps : List DonationStep) : DB :=
  steps.foldl runDonationStep db

/-- Scope-sequencing invariant: in every participant scope other than the
id-0 anonymous bucket, the donation numbers read, in insertion order,
exactly `1, 2, ..., N`. -/
def ScopeSeqOk (db : DB) : Prop :=
  ∀ s : Option Nat, s ≠ some 0 →
    scopeNumbers db s = List.range' 1 (scopeNumbers db s).length

/-! ## Supporting lemmas for donation sequencing -/

/-- `scopeMax` reads only the `donation` table. -/
lemma scopeMax_congr {db db' : DB} (h : db'.donation = db.donation) (s : Option Nat) :
    scopeMax db' s = scopeMax db s := by
  unfold scopeMax scopeNumbers scopeDonations
  rw [h]

/-- `ScopeSeqOk` reads only the `donation` table. -/
lemma scopeSeqOk_of_donation_eq {db db' : DB} (h : db'.donation = db.donation)
    (hok : ScopeSeqOk db) : ScopeSeqOk db' := by
  intro s hs
  unfold scopeNumbers scopeDonations
  rw [h]
  exact hok s hs

/-- `findOrCreateDonor` never touches the `donation` table. -/
lemma findOrCreateDonor_donation (db : DB) (fn ln em : String) :
    (findOrCreateDonor db fn ln em).1.donation = db.donation := by
  unfold findOrCreateDonor
  split <;> rfl

/-- Appending one donation row extends exactly its own scope's number list. -/
lemma scopeNumbers_insert {db db' : DB} {r : Donation}
    (h : db'.donation = db.donation ++ [r]) (s : Option Nat) :
    scopeNumbers db' s =
      scopeNumbers db s ++ (if r.participant_id == s then [r.donation_number] else []) := by
  unfold scopeNumbers scopeDonations
  rw [h, List.filter_append, List.map_append]
  by_cases hm : r.participant_id == s <;> simp [List.filter, hm]

/-- Folding `max` with a seed. -/
lemma foldr_max_eq_max_foldr (l : List Nat) (i : Nat) :
    l.foldr max i = max (l.foldr max 0) i := by
  induction l with
  | nil => simp
  | cons a l ih =>
      simp only [List.foldr_cons, ih]
      omega

/-- The max of `1, ..., n` (seeded with `0`) is `n`. -/
lemma foldr_max_range' (n : Nat) : (List.range' 1 n).foldr max 0 = n := by
  induction n with
  | zero => rfl
  | succ k ih =>
      rw [List.range'_concat, List.foldr_append, List.foldr_cons, List.foldr_nil,
        foldr_max_eq_max_foldr, ih]
      omega

/-- Inserting a donation whose number is `max-of-its-own-scope + 1` preserves
the scope-sequencing invariant (scopes other than the id-0 bucket). -/
lemma scopeSeqOk_insert {db db' : DB} {r : Donation}
    (h : db'.donation = db.donation ++ [r])
    (hnum : r.participant_id ≠ some 0 →
      r.donation_number = scopeMax db r.participant_id + 1)
    (hok : ScopeSeqOk db) : ScopeSeqOk db' := by
  intro s hs
  rw [scopeNumbers_insert h s]
  by_cases hm : r.participant_id == s
  · have hps : r.participant_id = s := by simpa using hm
    subst hps
    have hbase := hok _ hs
    generalize hn : (scopeNumbers db r.participant_id).length = n at hbase
    rw [if_pos (by simp), hnum hs]
    unfold scopeMax
    rw [hbase, foldr_max_range']
    have hlen : (List.range' 1 n ++ [n + 1]).length = n + 1 := by simp
    rw [hlen, List.range'_concat]
    simp only [one_mul, List.append_cancel_left_eq, List.cons.injEq, and_true]
    omega
  · simp only [if_neg hm, List.append_nil]
    exact hok s hs

/-- `POST /donations/public` preserves the scope-sequencing invariant. -/
lemma scopeSeqOk_postDonationsPublic (db : DB) (f : PublicDonationForm)
    (today : String) (hok : ScopeSeqOk db) :
    ScopeSeqOk (postDonationsPublic db f today).1 := by
  unfold postDonationsPublic
  split
  · exact hok
  split
  · exact hok
  split
  · exact hok
  by_cases he : f.donor_email = ""
  · simp only [he, if_pos rfl]
    exact scopeSeqOk_insert rfl (fun _ => rfl) hok
  · simp only [if_neg he]
    have hfd := findOrCreateDonor_donation db (jsTrim f.donor_first_name)
      (jsTrim f.donor_last_name) (jsToLower (jsTrim f.donor_email))
    refine scopeSeqOk_insert rfl (fun _ => ?_) (scopeSeqOk_of_donation_eq hfd hok)
    rfl

/-- `POST /donations` preserves the scope-sequencing invariant: for a truthy
nonzero participant id and for the NULL scope the inserted number is the
scope's own max plus one, and a submitted id of `0` only ever writes into
the excluded id-0 bucket. -/
lemma scopeSeqOk_postDonations (db : DB) (f : AdminDonationForm)
    (today : String) (hok : ScopeSeqOk db) :
    ScopeSeqOk (postDonations db f today).1 := by
  unfold postDonations
  refine scopeSeqOk_insert rfl (fun hz => ?_) hok
  match hp : f.participant_id with
  | none => rfl
  | some n =>
      have hn : n ≠ 0 := by
        intro h0
        exact hz (by rw [hp, h0])
      simp [hp, hn]

/-- C1, amended: every donation-creation call preserves per-scope sequencing
away from the id-0 anonymous bucket. -/
lemma scopeSeqOk_runDonationSteps (steps : List DonationStep) (db : DB)
    (hok : ScopeSeqOk db) : ScopeSeqOk (runDonationSteps db steps) := by
  induction steps generalizing db with
  | nil => exact hok
  | cons st steps ih =>
      refine ih (runDonationStep db st) ?_
      cases st with
      | publicStep f today => exact scopeSeqOk_postDonationsPublic db f today hok
      | adminStep f today => exact scopeSeqOk_postDonations db f today hok

/-! ## C1 -/

/-- C1 (amended): starting from any database whose donation table is
per-scope sequential (e.g. the empty one), any sequence of calls of the two
donation-creation operations leaves every participant scope *other than the
id-0 anonymous bucket* holding donation numbers exactly `1, 2, ..., N` in
insertion order — no gaps, no repeats — donations for other scopes in
between notwithstanding, because each insert into such a scope uses
`(max existing number in that scope, or 0) + 1`.  The id-0 bucket must be
excluded: the admin route treats the submitted id `0` as falsy, reads the
max from the NULL scope, yet inserts the row with participant id `0`. -/
theorem donation_scope_sequencing (db : DB) (steps : List DonationStep)
    (hok : ScopeSeqOk db) :
    ∀ s : Option Nat, s ≠ some 0 →
      scopeNumbers (runDonationSteps db steps) s =
        List.range' 1 (scopeNumbers (runDonationSteps db steps) s).length :=
  scopeSeqOk_runDonationSteps steps db hok

/-- Concrete step sequence for the C1 witness: an admin donation for
participant 3, an interleaved anonymous public donation, then another admin
donation for participant 3. -/
def c1WitnessSteps : List DonationStep :=
  [DonationStep.adminStep { participant_id := some 3, amount := 50, date := "" } "2025-01-01",
   DonationStep.publicStep ⟨"Jane", "Doe", "", 20⟩ "2025-01-02",
   DonationStep.adminStep { participant_id := some 3, amount := 10, date := "" } "2025-01-03"]

/-- Witness for C1: the `c1WitnessSteps` sequence leaves scope 3 with
numbers `[1, 2] = range' 1 2`. -/
theorem donation_scope_sequencing_witness :
    ScopeSeqOk emptyDB ∧
    scopeNumbers (runDonationSteps emptyDB c1WitnessSteps) (some 3) =
      List.range' 1 (scopeNumbers (runDonationSteps emptyDB c1WitnessSteps) (some 3)).length ∧
    scopeNumbers (runDonationSteps emptyDB c1WitnessSteps) (some 3) = [1, 2] :=
  ⟨fun _ _ => rfl,
   donation_scope_sequencing emptyDB c1WitnessSteps (fun _ _ => rfl) (some 3) (by decide),
   by decide⟩

/-- Concrete step sequence refuting C1 as frozen: two sequential admin-route
donations submitted for participant id `0`. -/
def c1CexSteps : List DonationStep :=
  [DonationStep.adminStep { participant_id := some 0, amount := 50, date := "2025-01-01" } "2025-01-01",
   DonationStep.adminStep { participant_id := some 0, amount := 50, date := "2025-01-01" } "2025-01-01"]

/-- Counterexample for C1 as frozen: two sequential admin-route donations
submitted for participant id `0` (the anonymous participant record that the
public route's donations also use) both receive donation_number `1` —
`[1, 1]`, a repeat instead of `1..2` — because the route computes the next
number from the NULL scope while inserting into scope `0`. -/
theorem donation_scope_sequencing_cex :
    scopeNumbers (runDonationSteps emptyDB c1CexSteps) (some 0) = [1, 1] ∧
    ([1, 1] : List Nat) ≠ List.range' 1 2 := by
  constructor
  · decide
  · decide

/-! ## Participant maintenance routes -/

/-- Parsed form of the participant create/update routes; every field is a
string, `""` = missing/falsy. -/
structure ParticipantForm where
  first_name : String
  last_name : String
  email : String
  phone : String
  city : String
  state : String
  zip : String
  school : String
  field_of_interest : String
deriving DecidableEq, Repr

/-- `x ? x.trim() : null` as applied to the optional text columns. -/
def optTrim (s : String) : Option String :=
  if s = "" then none else some (jsTrim s)

/-- `email ? email.trim().toLowerCase() : null`. -/
def optEmail (s : String) : Option String :=
  if s = "" then none else some (jsToLower (jsTrim s))

/-- The row inserted by `POST /participants` (app.js:908-919): names stored
raw, optional columns trimmed-or-null, email additionally lowercased, role
fixed to 'participant'; the id is the serial key. -/
def newParticipantRow (db : DB) (f : ParticipantForm) : Participant :=
  { participant_id := db.nextParticipantId
    participant_first_name := f.first_name
    participant_last_name := f.last_name
    participant_email := optEmail f.email
    participant_phone := optTrim f.phone
    participant_city := optTrim f.city
    participant_state := optTrim f.state
    participant_zip := optTrim f.zip
    participant_school_or_employer := optTrim f.school
    participant_field_of_interest := optTrim f.field_of_interest
    participant_role := "participant" }

/-- `POST /participants` (app.js:870-929).  `if (email && email.trim())`
(both conjuncts together are equivalent to `jsTrim email ≠ ""`) triggers the
email uniqueness pre-check against the normalized candidate; then likewise
for the phone; only then is the row inserted. -/
def postParticipants (db : DB) (f : ParticipantForm) : DB × Response :=
  if jsTrim f.email ≠ "" ∧
      (db.participant.find?
        (fun p => p.participant_email == some (jsToLower (jsTrim f.email)))).isSome then
    (db, ⟨"/participants/new", .error "A participant with this email already exists."⟩)
  else if jsTrim f.phone ≠ "" ∧
      (db.participant.find?
        (fun p => p.participant_phone == some (jsTrim f.phone))).isSome then
    (db, ⟨"/participants/new", .error "A participant with this phone number already exists."⟩)
  else
    ({ db with participant := db.participant ++ [newParticipantRow db f]
               nextParticipantId := db.nextParticipantId + 1 },
     ⟨"/participants", .success "Participant added."⟩)

/-- The field update applied by `POST /participants/:id` (app.js:1060-1070):
every column except the id and the role tag is overwritten from the form. -/
def updateParticipantRow (p : Participant) (f : ParticipantForm) : Participant :=
  { p with
    participant_first_name := f.first_name
    participant_last_name := f.last_name
    participant_email := optEmail f.email
    participant_phone := optTrim f.phone
    participant_city := optTrim f.city
    participant_state := optTrim f.state
    participant_zip := optTrim f.zip
    participant_school_or_employer := optTrim f.school
    participant_field_of_interest := optTrim f.field_of_interest }

/-- `POST /participants/:id` (app.js:1015-1081): 404 guard, then the same
two uniqueness pre-checks as creation but excluding the edited row
(`whereNot('participant_id', id)`), then the update. -/
def postParticipantsId (db : DB) (id : Nat) (f : ParticipantForm) : DB × Response :=
  if (db.participant.find? (fun p => p.participant_id == id)).isNone then
    (db, ⟨"/participants", .error "Participant not found."⟩)
  else if jsTrim f.email ≠ "" ∧
      (db.participant.find?
        (fun p => p.participant_email == some (jsToLower (jsTrim f.email)) &&
          p.participant_id != id)).isSome then
    (db, ⟨"/participants/" ++ toString id ++ "/edit",
      .error "A participant with this email already exists."⟩)
  else if jsTrim f.phone ≠ "" ∧
      (db.participant.find?
        (fun p => p.participant_phone == some (jsTrim f.phone) &&
          p.participant_id != id)).isSome then
    (db, ⟨"/participants/" ++ toString id ++ "/edit",
      .error "A participant with this phone number already exists."⟩)
  else
    ({ db with participant :=
                 db.participant.map
                   (fun p => if p.participant_id = id then updateParticipantRow p f else p) },
     ⟨"/participants", .success "Participant updated."⟩)

/-- `POST /participants/:id/delete` (app.js:1083-1108): count the
participant's donations (`parseInt` of the pg count string, i.e. the count
itself); a positive count blocks the delete; otherwise the participant's
`participant_milestone` rows are removed and then the participant row. -/
def postParticipantsIdDelete (db : DB) (id : Nat) : DB × Response :=
  let donationCount := (db.donation.filter (fun d => d.participant_id == some id)).length
  if donationCount > 0 then
    (db, ⟨"/participants",
      .error "Cannot delete participant. This participant has donations associated with them. Please remove or reassign donations before deleting."⟩)
  else
    ({ db with
        participant_milestone :=
          db.participant_milestone.filter (fun pm => !(pm.participant_id == id))
        participant := db.participant.filter (fun p => !(p.participant_id == id)) },
     ⟨"/participants", .success "Participant deleted."⟩)

/-- Parsed form of `POST /participants/:id/milestones`: `milestone_id` is a
numeric form string (`none` = empty/absent, falsy), `achieved_date` a text
field. -/
structure MilestoneAssignForm where
  milestone_id : Option Nat
  achieved_date : String
deriving DecidableEq, Repr

/-- `POST /participants/:id/milestones` (app.js:1154-1183): 404 guard on the
participant, falsy guard on `milestone_id`, then an unconditional insert of
the link row — no duplicate check — with `achieved_date || today` as the
achieved date. -/
def postParticipantsIdMilestones (db : DB) (id : Nat) (f : MilestoneAssignForm)
    (today : String) : DB × Response :=
  if (db.participant.find? (fun p => p.participant_id == id)).isNone then
    (db, ⟨"/participants", .error "Participant not found."⟩)
  else
    match f.milestone_id with
    | none => (db, ⟨"/participants/" ++ toString id, .error "Please select a milestone."⟩)
    | some mid =>
        ({ db with participant_milestone := db.participant_milestone ++
            [{ participant_id := id, milestone_id := mid
               milestone_date := if f.achieved_date ≠ "" then f.achieved_date else today }] },
         ⟨"/participants/" ++ toString id, .success "Milestone assigned."⟩)

/-! ## Milestone deletion route -/

/-- The handler body of `POST /milestones/:id/delete` (app.js:1325-1337):
remove the `participant_milestone` rows referencing the milestone, then the
milestone row; no existence check. -/
def milestonesDeleteCore (db : DB) (id : Nat) : DB × Response :=
  ({ db with
      participant_milestone :=
        db.participant_milestone.filter (fun pm => !(pm.milestone_id == id))
      milestone := db.milestone.filter (fun m => !(m.milestone_id == id)) },
   ⟨"/milestones", .success "Milestone deleted."⟩)

/-- `POST /milestones/:id/delete` with its `requireManager` guard composed
in front, as in `app.post('/milestones/:id/delete', requireManager, ...)`. -/
def postMilestonesIdDelete (sess : Option SessionUser) (db : DB) (id : Nat) :
    DB × Response :=
  match requireManager sess with
  | some resp => (db, resp)
  | none => milestonesDeleteCore db id

/-! ## C2 -/

/-- C2 (amended): for an existing participant holding a *nonempty*
normalized (lowercase) email `s`, (a) creating a participant whose
submitted email normalizes — trim + lowercase, i.e. any capitalization of
`s` — to `s` fails with the conflict flash and leaves the database
untouched; (b) updating a *different* participant to that email likewise
fails with the conflict flash and no side effect; (c) the check excludes
the edited row, so updating the holder to its own current email succeeds
(given its phone field is left blank and no other row holds `s`), and its
stored email is still `s` afterwards.  The nonemptiness hypothesis is
forced: a whitespace-only email submission stores the *non-null* email `""`
while the `email && email.trim()` guard skips the uniqueness check for
exactly those submissions, so `""` emails are not protected — see the
counterexample below. -/
theorem participant_email_uniqueness
    (db : DB) (p : Participant) (s : String)
    (hmem : p ∈ db.participant)
    (hpe : p.participant_email = some s)
    (hs : s ≠ "")
    (fC : ParticipantForm) (hfc : jsToLower (jsTrim fC.email) = s)
    (t : Participant) (htmem : t ∈ db.participant)
    (htne : p.participant_id ≠ t.participant_id)
    (fU : ParticipantForm) (hfu : jsToLower (jsTrim fU.email) = s)
    (fS : ParticipantForm) (hfs : jsToLower (jsTrim fS.email) = s)
    (hfsPhone : fS.phone = "")
    (huniq : ∀ q ∈ db.participant, q.participant_email = some s →
      q.participant_id = p.participant_id) :
    postParticipants db fC =
      (db, ⟨"/participants/new", .error "A participant with this email already exists."⟩) ∧
    postParticipantsId db t.participant_id fU =
      (db, ⟨"/participants/" ++ toString t.participant_id ++ "/edit",
        .error "A participant with this email already exists."⟩) ∧
    (postParticipantsId db p.participant_id fS).2 =
      ⟨"/participants", .success "Participant updated."⟩ ∧
    (∀ q ∈ (postParticipantsId db p.participant_id fS).1.participant,
      q.participant_id = p.participant_id → q.participant_email = some s) := by
  have hCe : jsTrim fC.email ≠ "" := by
    intro h
    rw [h] at hfc
    exact hs (hfc ▸ rfl)
  have hUe : jsTrim fU.email ≠ "" := by
    intro h
    rw [h] at hfu
    exact hs (hfu ▸ rfl)
  have hSe : jsTrim fS.email ≠ "" := by
    intro h
    rw [h] at hfs
    exact hs (hfs ▸ rfl)
  have hSne : fS.email ≠ "" := by
    intro h
    exact hSe (by rw [h]; rfl)
  have hnotNoneT : ¬ ((db.participant.find?
      (fun q => q.participant_id == t.participant_id)).isNone = true) := by
    rw [Option.isNone_iff_eq_none, List.find?_eq_none]
    intro hN
    exact hN t htmem (by simp)
  have hnotNoneP : ¬ ((db.participant.find?
      (fun q => q.participant_id == p.participant_id)).isNone = true) := by
    rw [Option.isNone_iff_eq_none, List.find?_eq_none]
    intro hN
    exact hN p hmem (by simp)
  have hSnone : db.participant.find?
      (fun q => q.participant_email == some (jsToLower (jsTrim fS.email)) &&
        q.participant_id != p.participant_id) = none := by
    rw [List.find?_eq_none]
    intro q hq
    simp only [hfs, Bool.and_eq_true, beq_iff_eq, bne_iff_ne, ne_eq, not_and]
    intro hqe hqid
    exact hqid (huniq q hq hqe)
  have hres : postParticipantsId db p.participant_id fS =
      ({ db with participant :=
                   db.participant.map
                     (fun q => if q.participant_id = p.participant_id then
                       updateParticipantRow q fS else q) },
       ⟨"/participants", .success "Participant updated."⟩) := by
    unfold postParticipantsId
    rw [if_neg hnotNoneP, if_neg, if_neg]
    · intro hc
      exact hc.1 (by rw [hfsPhone]; rfl)
    · intro hc
      rw [hSnone] at hc
      exact absurd hc.2 (by simp)
  refine ⟨?_, ?_, ?_, ?_⟩
  · unfold postParticipants
    rw [if_pos]
    refine ⟨hCe, ?_⟩
    rw [List.find?_isSome]
    exact ⟨p, hmem, by simp [hfc, hpe]⟩
  · unfold postParticipantsId
    rw [if_neg hnotNoneT, if_pos]
    refine ⟨hUe, ?_⟩
    rw [List.find?_isSome]
    refine ⟨p, hmem, ?_⟩
    simp [hfu, hpe, htne]
  · rw [hres]
  · rw [hres]
    intro q hq hqid
    simp only [List.mem_map] at hq
    obtain ⟨r, hr, hrq⟩ := hq
    by_cases hcase : r.participant_id = p.participant_id
    · rw [if_pos hcase] at hrq
      subst hrq
      show optEmail fS.email = some s
      unfold optEmail
      rw [if_neg hSne, hfs]
    · rw [if_neg hcase] at hrq
      subst hrq
      exact absurd hqid hcase

/-- Existing email holder for the C2 witness. -/
def c2P : Participant :=
  ⟨1, "Ann", "Lee", some "ann@x.com", none, none, none, none, none, none, "participant"⟩

/-- Second, distinct participant for the C2 witness. -/
def c2T : Participant :=
  ⟨2, "Bob", "Kim", some "bob@x.com", none, none, none, none, none, none, "participant"⟩

/-- Concrete state for the C2 witness. -/
def c2DB : DB := { emptyDB with participant := [c2P, c2T], nextParticipantId := 3 }

/-- Create form whose email is a recapitalization of the stored one. -/
def c2FormC : ParticipantForm := ⟨"New", "Person", "Ann@X.Com", "", "", "", "", "", ""⟩

/-- Update form (for participant 2) with the stored email, padded and
recapitalized. -/
def c2FormU : ParticipantForm := ⟨"Bob", "Kim", " ANN@x.com", "", "", "", "", "", ""⟩

/-- Self-update form (for participant 1) with its own current email. -/
def c2FormS : ParticipantForm := ⟨"Ann", "Lee", "ann@x.com", "", "", "", "", "", ""⟩

/-- Witness for C2 at the concrete state `c2DB`. -/
theorem participant_email_uniqueness_witness :
    postParticipants c2DB c2FormC =
      (c2DB, ⟨"/participants/new", .error "A participant with this email already exists."⟩) ∧
    postParticipantsId c2DB c2T.participant_id c2FormU =
      (c2DB, ⟨"/participants/" ++ toString c2T.participant_id ++ "/edit",
        .error "A participant with this email already exists."⟩) ∧
    (postParticipantsId c2DB c2P.participant_id c2FormS).2 =
      ⟨"/participants", .success "Participant updated."⟩ ∧
    (∀ q ∈ (postParticipantsId c2DB c2P.participant_id c2FormS).1.participant,
      q.participant_id = c2P.participant_id → q.participant_email = some "ann@x.com") :=
  participant_email_uniqueness c2DB c2P "ann@x.com" (by decide) (by decide) (by decide)
    c2FormC (by decide) c2T (by decide) (by decide) c2FormU (by decide)
    c2FormS (by decide) (by decide) (by decide)

/-- Participant stored with the non-null *empty-string* email — the row a
whitespace-only email submission produces, since
`email ? email.trim().toLowerCase() : null` stores `""` for it
(`optEmail " " = some ""`). -/
def c2CexP : Participant :=
  ⟨1, "Ann", "Lee", some "", none, none, none, none, none, none, "participant"⟩

/-- A second, distinct participant to be updated onto the `""` email. -/
def c2CexQ : Participant :=
  ⟨2, "Bob", "Kim", some "bob@x.com", none, none, none, none, none, none, "participant"⟩

/-- Concrete state for the C2 counterexample. -/
def c2CexDB : DB := { emptyDB with participant := [c2CexP, c2CexQ], nextParticipantId := 3 }

/-- A whitespace-only email submission: the field is truthy but trims to
the empty string, so the uniqueness pre-check (`email && email.trim()`) is
skipped while the insert/update still stores the non-null email `""`. -/
def c2CexForm : ParticipantForm := ⟨"New", "Person", " ", "", "", "", "", "", ""⟩

/-- Counterexample for C2 as frozen: participant 1's stored email is the
*non-null* `some ""`, and the submitted email `" "` normalizes (trim +
lowercase) to that same email; yet creation succeeds with
"Participant added." — no Conflict — and leaves *two* rows holding the same
non-null email, and updating the different participant 2 to that email
succeeds as well.  The uniqueness pre-check is guarded by
`email && email.trim()` and is skipped for exactly the submissions that
store `""`. -/
theorem participant_email_uniqueness_cex :
    c2CexP.participant_email = some "" ∧
    jsToLower (jsTrim c2CexForm.email) = "" ∧
    (c2CexDB.participant.filter (fun p => p.participant_email == some "")).length = 1 ∧
    (postParticipants c2CexDB c2CexForm).2 =
      ⟨"/participants", .success "Participant added."⟩ ∧
    ((postParticipants c2CexDB c2CexForm).1.participant.filter
      (fun p => p.participant_email == some "")).length = 2 ∧
    (postParticipantsId c2CexDB 2 c2CexForm).2 =
      ⟨"/participants", .success "Participant updated."⟩ := by
  exact ⟨rfl, by decide, by decide, by decide, by decide, by decide⟩

/-! ## C3 -/

/-- C3: if any donation references the participant, the delete is blocked —
error flash, redirect to the listing, database untouched.  With zero
donations the delete succeeds: afterwards no `participant_milestone` row of
that participant and no participant row with that id remain, every
unrelated row of both tables survives, and no other table is touched. -/
theorem participant_delete_guard (db : DB) (id : Nat) :
    ((∃ d ∈ db.donation, d.participant_id = some id) →
      postParticipantsIdDelete db id =
        (db, ⟨"/participants",
          .error "Cannot delete participant. This participant has donations associated with them. Please remove or reassign donations before deleting."⟩)) ∧
    ((∀ d ∈ db.donation, d.participant_id ≠ some id) →
      (postParticipantsIdDelete db id).2 =
        ⟨"/participants", .success "Participant deleted."⟩ ∧
      (∀ q ∈ (postParticipantsIdDelete db id).1.participant, q.participant_id ≠ id) ∧
      (∀ pm ∈ (postParticipantsIdDelete db id).1.participant_milestone,
        pm.participant_id ≠ id) ∧
      (∀ q ∈ db.participant, q.participant_id ≠ id →
        q ∈ (postParticipantsIdDelete db id).1.participant) ∧
      (∀ pm ∈ db.participant_milestone, pm.participant_id ≠ id →
        pm ∈ (postParticipantsIdDelete db id).1.participant_milestone) ∧
      (postParticipantsIdDelete db id).1.donation = db.donation) := by
  constructor
  · rintro ⟨d, hd, hdp⟩
    unfold postParticipantsIdDelete
    rw [if_pos]
    refine List.length_pos.mpr ?_
    intro hnil
    rw [List.filter_eq_nil_iff] at hnil
    exact hnil d hd (by simp [hdp])
  · intro hnone
    have hcnt : (db.donation.filter (fun d => d.participant_id == some id)).length = 0 := by
      rw [List.length_eq_zero, List.filter_eq_nil_iff]
      intro d hd
      simp only [beq_iff_eq]
      exact hnone d hd
    have hres : postParticipantsIdDelete db id =
        ({ db with
            participant_milestone :=
              db.participant_milestone.filter (fun pm => !(pm.participant_id == id))
            participant := db.participant.filter (fun p => !(p.participant_id == id)) },
         ⟨"/participants", .success "Participant deleted."⟩) := by
      unfold postParticipantsIdDelete
      rw [if_neg]
      rw [hcnt]
      omega
    rw [hres]
    refine ⟨rfl, ?_, ?_, ?_, ?_, rfl⟩
    · intro q hq
      have := (List.mem_filter.mp hq).2
      simpa using this
    · intro pm hpm
      have := (List.mem_filter.mp hpm).2
      simpa using this
    · intro q hq hne
      exact List.mem_filter.mpr ⟨hq, by simpa using hne⟩
    · intro pm hpm hne
      exact List.mem_filter.mpr ⟨hpm, by simpa using hne⟩

/-- Concrete state for the C3 witness: participant 1 owns a donation and a
milestone link; participant 2 has no donations but has a milestone link. -/
def c3DB : DB :=
  { emptyDB with
    participant := [c2P, c2T]
    donation := [⟨some 1, 1, 25, "2025-01-01"⟩]
    milestone := [⟨7, "First", "first milestone"⟩]
    participant_milestone := [⟨1, 7, "2025-01-02"⟩, ⟨2, 7, "2025-01-03"⟩]
    nextParticipantId := 3 }

/-- Witness for C3 at `c3DB`: deleting participant 1 is blocked wholesale;
deleting participant 2 succeeds, drops its milestone link, and keeps
participant 1 with its link. -/
theorem participant_delete_guard_witness :
    postParticipantsIdDelete c3DB 1 =
      (c3DB, ⟨"/participants",
        .error "Cannot delete participant. This participant has donations associated with them. Please remove or reassign donations before deleting."⟩) ∧
    (postParticipantsIdDelete c3DB 2).2 =
      ⟨"/participants", .success "Participant deleted."⟩ ∧
    (∀ q ∈ (postParticipantsIdDelete c3DB 2).1.participant, q.participant_id ≠ 2) ∧
    (∀ pm ∈ (postParticipantsIdDelete c3DB 2).1.participant_milestone,
      pm.participant_id ≠ 2) :=
  have h := participant_delete_guard c3DB 2
  ⟨(participant_delete_guard c3DB 1).1 ⟨⟨some 1, 1, 25, "2025-01-01"⟩, by decide, rfl⟩,
   (h.2 (by decide)).1,
   (h.2 (by decide)).2.1,
   (h.2 (by decide)).2.2.1⟩

/-! ## C6 -/

/-- C6: an authenticated identity whose role is not 'admin' issuing
`POST /milestones/:id/delete` is turned away by `requireManager` with the
forbidden flash and a redirect to `/dashboard`, the whole database —
milestone row and its `participant_milestone` rows included — untouched.
The same request from an 'admin' identity succeeds: afterwards the
milestone id appears in neither table, all unrelated rows of both tables
survive, and no other table changes. -/
theorem milestone_delete_authorization (db : DB) (id : Nat) (u : SessionUser) :
    (u.role ≠ "admin" →
      postMilestonesIdDelete (some u) db id =
        (db, ⟨"/dashboard", .error "You must be an admin to do that."⟩)) ∧
    (u.role = "admin" →
      (postMilestonesIdDelete (some u) db id).2 =
        ⟨"/milestones", .success "Milestone deleted."⟩ ∧
      (∀ m ∈ (postMilestonesIdDelete (some u) db id).1.milestone,
        m.milestone_id ≠ id) ∧
      (∀ pm ∈ (postMilestonesIdDelete (some u) db id).1.participant_milestone,
        pm.milestone_id ≠ id) ∧
      (∀ m ∈ db.milestone, m.milestone_id ≠ id →
        m ∈ (postMilestonesIdDelete (some u) db id).1.milestone) ∧
      (∀ pm ∈ db.participant_milestone, pm.milestone_id ≠ id →
        pm ∈ (postMilestonesIdDelete (some u) db id).1.participant_milestone) ∧
      (postMilestonesIdDelete (some u) db id).1.participant = db.participant ∧
      (postMilestonesIdDelete (some u) db id).1.donation = db.donation) := by
  constructor
  · intro hrole
    unfold postMilestonesIdDelete requireManager
    simp [hrole]
  · intro hrole
    have hres : postMilestonesIdDelete (some u) db id = milestonesDeleteCore db id := by
      unfold postMilestonesIdDelete requireManager
      simp [hrole]
    rw [hres]
    unfold milestonesDeleteCore
    refine ⟨rfl, ?_, ?_, ?_, ?_, rfl, rfl⟩
    · intro m hm
      have := (List.mem_filter.mp hm).2
      simpa using this
    · intro pm hpm
      have := (List.mem_filter.mp hpm).2
      simpa using this
    · intro m hm hne
      exact List.mem_filter.mpr ⟨hm, by simpa using hne⟩
    · intro pm hpm hne
      exact List.mem_filter.mpr ⟨hpm, by simpa using hne⟩

/-- Witness for C6 at `c3DB`: a 'user'-role identity is sent to the
dashboard with milestone 7 and both of its links intact; an 'admin'-role
identity deletes milestone 7 together with its links. -/
theorem milestone_delete_authorization_witness :
    postMilestonesIdDelete (some ⟨5, "carol", "user"⟩) c3DB 7 =
      (c3DB, ⟨"/dashboard", .error "You must be an admin to do that."⟩) ∧
    (postMilestonesIdDelete (some ⟨6, "dave", "admin"⟩) c3DB 7).2 =
      ⟨"/milestones", .success "Milestone deleted."⟩ ∧
    (∀ m ∈ (postMilestonesIdDelete (some ⟨6, "dave", "admin"⟩) c3DB 7).1.milestone,
      m.milestone_id ≠ 7) ∧
    (∀ pm ∈ (postMilestonesIdDelete
        (some ⟨6, "dave", "admin"⟩) c3DB 7).1.participant_milestone,
      pm.milestone_id ≠ 7) :=
  have h := milestone_delete_authorization c3DB 7 ⟨6, "dave", "admin"⟩
  ⟨(milestone_delete_authorization c3DB 7 ⟨5, "carol", "user"⟩).1 (by decide),
   (h.2 rfl).1, (h.2 rfl).2.1, (h.2 rfl).2.2.1⟩

/-! ## C10 -/

/-- C10: with the participant present and a milestone selected,
`POST /participants/:id/milestones` succeeds unconditionally — there is no
duplicate check, so the number of `participant_milestone` rows for the
exact (participant, milestone) pair grows by one even if the pair is
already linked — and a blank `achieved_date` stores the current date. -/
theorem milestone_assignment_no_duplicate_check (db : DB) (id mid : Nat)
    (f : MilestoneAssignForm) (today : String)
    (hp : ∃ q ∈ db.participant, q.participant_id = id)
    (hm : f.milestone_id = some mid) :
    (postParticipantsIdMilestones db id f today).2 =
      ⟨"/participants/" ++ toString id, .success "Milestone assigned."⟩ ∧
    ((postParticipantsIdMilestones db id f today).1.participant_milestone.filter
        (fun r => r.participant_id == id && r.milestone_id == mid)).length =
      (db.participant_milestone.filter
        (fun r => r.participant_id == id && r.milestone_id == mid)).length + 1 ∧
    (f.achieved_date = "" →
      (⟨id, mid, today⟩ : ParticipantMilestone) ∈
        (postParticipantsIdMilestones db id f today).1.participant_milestone) := by
  obtain ⟨q, hq, hqid⟩ := hp
  have hres : postParticipantsIdMilestones db id f today =
      ({ db with participant_milestone := db.participant_milestone ++
          [{ participant_id := id, milestone_id := mid
             milestone_date := if f.achieved_date ≠ "" then f.achieved_date else today }] },
       ⟨"/participants/" ++ toString id, .success "Milestone assigned."⟩) := by
    unfold postParticipantsIdMilestones
    rw [if_neg, hm]
    rw [Option.isNone_iff_eq_none, List.find?_eq_none]
    intro hN
    exact hN q hq (by simp [hqid])
  rw [hres]
  refine ⟨rfl, ?_, ?_⟩
  · rw [List.filter_append, List.length_append]
    simp
  · intro hdate
    refine List.mem_append_right _ ?_
    rw [if_neg (by simp [hdate])]
    exact List.mem_singleton_self _

/-- Witness for C10 at `c3DB`: participant 2 already holds milestone 7, and
assigning it again with a blank date succeeds, bringing the pair's link
count from 1 to 2, with today's date stored. -/
theorem milestone_assignment_no_duplicate_check_witness :
    (postParticipantsIdMilestones c3DB 2 ⟨some 7, ""⟩ "2025-02-01").2 =
      ⟨"/participants/" ++ toString 2, .success "Milestone assigned."⟩ ∧
    ((postParticipantsIdMilestones c3DB 2 ⟨some 7, ""⟩ "2025-02-01").1.participant_milestone.filter
        (fun r => r.participant_id == 2 && r.milestone_id == 7)).length =
      (c3DB.participant_milestone.filter
        (fun r => r.participant_id == 2 && r.milestone_id == 7)).length + 1 ∧
    ((⟨2, 7, "2025-02-01"⟩ : ParticipantMilestone) ∈
      (postParticipantsIdMilestones c3DB 2 ⟨some 7, ""⟩ "2025-02-01").1.participant_milestone) :=
  have h := milestone_assignment_no_duplicate_check c3DB 2 7 ⟨some 7, ""⟩ "2025-02-01"
    ⟨c2T, by decide, rfl⟩ rfl
  ⟨h.1, h.2.1, h.2.2 rfl⟩

/-! ## Event-instance deletion (`POST /events/:id/delete`) -/

/-- A JS runtime value as relevant to the event-deletion comparison: the pg
driver hands `count(*)` (a PostgreSQL bigint) to JS as a decimal string,
while a numeric literal is a number. -/
inductive JSValue where
  | str : String → JSValue
  | num : Int → JSValue
deriving DecidableEq, Repr

/-- JS strict equality `===`: values of different runtime types are never
strictly equal, no coercion. -/
def jsStrictEq : JSValue → JSValue → Bool
  | .str a, .str b => a == b
  | .num a, .num b => a == b
  | _, _ => false

/-- A `count(*)` result as seen by this codebase: a decimal string (which is
why its other routes apply `parseInt` to it). -/
def pgCount (n : Nat) : JSValue := .str (toString n)

/-- `POST /events/:id/delete` (app.js:1821-1840): look the instance up; if
present, delete it, count the template's remaining instances, and — per the
comment "we'll delete it if this is the only instance" — delete the
template when `otherInstances.count === 0`.  The comparison is kept as the
source wrote it: a strict equality between the pg count string and the
number `0`. -/
def postEventsIdDelete (db : DB) (id : Nat) : DB × Response :=
  match db.event_instance.find? (fun ei => ei.event_instance_id == id) with
  | none => (db, ⟨"/events/admin", .success "Event deleted."⟩)
  | some eventInstance =>
      let db1 := { db with event_instance :=
                     db.event_instance.filter (fun ei => !(ei.event_instance_id == id)) }
      let otherCount :=
        (db1.event_instance.filter (fun ei => ei.event_id == eventInstance.event_id)).length
      let db2 :=
        if jsStrictEq (pgCount otherCount) (.num 0) then
          { db1 with event := db1.event.filter (fun e => !(e.event_id == eventInstance.event_id)) }
        else db1
      (db2, ⟨"/events/admin", .success "Event deleted."⟩)

/-! ## C4 -/

/-- Concrete state for C4: event template 1 with its sole instance 10. -/
def c4DB : DB := { emptyDB with event := [⟨1, "Workshop"⟩], event_instance := [⟨10, 1⟩] }

/-- C4 evaluated at the failing input: deleting instance 10 — the only
instance of template 1 — removes the instance but leaves the template row
in place, because `otherInstances.count === 0` compares the pg count
*string* `"0"` against the *number* `0` and is therefore false; in fact the
route can never delete a template row, for any state and id. -/
theorem event_delete_template_cascade_bug :
    ((postEventsIdDelete c4DB 10).1.event_instance = [] ∧
     (postEventsIdDelete c4DB 10).1.event = [⟨1, "Workshop"⟩]) ∧
    (∀ (db : DB) (id : Nat), (postEventsIdDelete db id).1.event = db.event) := by
  refine ⟨⟨by decide, by decide⟩, ?_⟩
  intro db id
  unfold postEventsIdDelete
  cases db.event_instance.find? (fun ei => ei.event_instance_id == id) <;> rfl

/-! ## C5 -/

/-- On a passing validation run (positive amount, nonblank names, email
present), the public donation route is exactly: find-or-create the donor,
then insert the donation numbered `max-of-the-donor's-scope + 1`. -/
lemma postDonationsPublic_valid (db : DB) (f : PublicDonationForm) (today : String)
    (hamt : 0 < f.amount) (hfn : jsTrim f.donor_first_name ≠ "")
    (hln : jsTrim f.donor_last_name ≠ "") (hem : f.donor_email ≠ "") :
    postDonationsPublic db f today =
      (let fc := findOrCreateDonor db (jsTrim f.donor_first_name)
         (jsTrim f.donor_last_name) (jsToLower (jsTrim f.donor_email))
       ({ fc.1 with donation := fc.1.donation ++
            [{ participant_id := some fc.2
               donation_number := scopeMax fc.1 (some fc.2) + 1
               donation_amount := f.amount, donation_date := today }] },
        ⟨"/donate", .success "Thank you for your support!"⟩)) := by
  unfold postDonationsPublic
  rw [if_neg (not_le.mpr hamt), if_neg hfn, if_neg hln, if_neg hem]

/-- `findOrCreateDonor` on a miss: insert the fresh donor row and return
the serial id. -/
lemma findOrCreateDonor_of_find?_none {db : DB} {fn ln em : String}
    (h : db.participant.find? (fun p => p.participant_email == some em) = none) :
    findOrCreateDonor db fn ln em =
      ({ db with participant := db.participant ++ [newDonorRow db fn ln em]
                 nextParticipantId := db.nextParticipantId + 1 },
       db.nextParticipantId) := by
  unfold findOrCreateDonor
  rw [h]

/-- `findOrCreateDonor` on a hit: reuse the found participant's id, state
untouched. -/
lemma findOrCreateDonor_of_find?_some {db : DB} {fn ln em : String} {p : Participant}
    (h : db.participant.find? (fun q => q.participant_email == some em) = some p) :
    findOrCreateDonor db fn ln em = (db, p.participant_id) := by
  unfold findOrCreateDonor
  rw [h]

/-- C5: a public donation with positive amount, nonblank first and last
name, and an email no participant holds creates exactly one new participant
— the `'donor'`-role row `newDonorRow` — and exactly one donation row,
numbered 1, under that participant's (fresh serial) id; a second public
donation with the same email then creates no participant, reuses the same
id, and is numbered 2. -/
theorem public_donation_find_or_create
    (db : DB) (f f2 : PublicDonationForm) (today today2 : String)
    (hamt : 0 < f.amount) (hfn : jsTrim f.donor_first_name ≠ "")
    (hln : jsTrim f.donor_last_name ≠ "") (hem : f.donor_email ≠ "")
    (hamt2 : 0 < f2.amount) (hfn2 : jsTrim f2.donor_first_name ≠ "")
    (hln2 : jsTrim f2.donor_last_name ≠ "") (hem2 : f2.donor_email = f.donor_email)
    (hnew : ∀ p ∈ db.participant,
      p.participant_email ≠ some (jsToLower (jsTrim f.donor_email)))
    (hfresh : ∀ d ∈ db.donation, d.participant_id ≠ some db.nextParticipantId) :
    (postDonationsPublic db f today).1.participant =
      db.participant ++ [newDonorRow db (jsTrim f.donor_first_name)
        (jsTrim f.donor_last_name) (jsToLower (jsTrim f.donor_email))] ∧
    (newDonorRow db (jsTrim f.donor_first_name) (jsTrim f.donor_last_name)
        (jsToLower (jsTrim f.donor_email))).participant_role = "donor" ∧
    (postDonationsPublic db f today).1.donation =
      db.donation ++ [⟨some db.nextParticipantId, 1, f.amount, today⟩] ∧
    (postDonationsPublic (postDonationsPublic db f today).1 f2 today2).1.participant =
      (postDonationsPublic db f today).1.participant ∧
    (postDonationsPublic (postDonationsPublic db f today).1 f2 today2).1.donation =
      (postDonationsPublic db f today).1.donation ++
        [⟨some db.nextParticipantId, 2, f2.amount, today2⟩] := by
  have hfind1 : db.participant.find?
      (fun p => p.participant_email == some (jsToLower (jsTrim f.donor_email))) = none := by
    rw [List.find?_eq_none]
    intro p hp
    simpa using hnew p hp
  have hfil : db.donation.filter
      (fun d => d.participant_id == some db.nextParticipantId) = [] := by
    rw [List.filter_eq_nil_iff]
    intro d hd
    simpa using hfresh d hd
  have hmax1 : scopeMax db (some db.nextParticipantId) = 0 := by
    unfold scopeMax scopeNumbers scopeDonations
    rw [hfil]
    rfl
  have h1 := postDonationsPublic_valid db f today hamt hfn hln hem
  rw [findOrCreateDonor_of_find?_none hfind1] at h1
  have hPart1 : (postDonationsPublic db f today).1.participant =
      db.participant ++ [newDonorRow db (jsTrim f.donor_first_name)
        (jsTrim f.donor_last_name) (jsToLower (jsTrim f.donor_email))] := by
    rw [h1]
  have hDon1 : (postDonationsPublic db f today).1.donation =
      db.donation ++ [⟨some db.nextParticipantId, 1, f.amount, today⟩] := by
    rw [h1]
    show db.donation ++
        [(⟨some db.nextParticipantId, scopeMax db (some db.nextParticipantId) + 1,
          f.amount, today⟩ : Donation)] = _
    rw [hmax1]
  have hemEq : jsToLower (jsTrim f2.donor_email) = jsToLower (jsTrim f.donor_email) := by
    rw [hem2]
  have hem2ne : f2.donor_email ≠ "" := by
    rw [hem2]
    exact hem
  have hfind2 : (postDonationsPublic db f today).1.participant.find?
      (fun p => p.participant_email == some (jsToLower (jsTrim f2.donor_email))) =
      some (newDonorRow db (jsTrim f.donor_first_name)
        (jsTrim f.donor_last_name) (jsToLower (jsTrim f.donor_email))) := by
    rw [hPart1, hemEq, List.find?_append, hfind1]
    simp [List.find?_cons, newDonorRow]
  have hmax2 : scopeMax (postDonationsPublic db f today).1 (some db.nextParticipantId) = 1 := by
    unfold scopeMax scopeNumbers scopeDonations
    rw [hDon1, List.filter_append, hfil]
    simp
  have h2 := postDonationsPublic_valid (postDonationsPublic db f today).1 f2 today2
    hamt2 hfn2 hln2 hem2ne
  rw [findOrCreateDonor_of_find?_some hfind2] at h2
  have hPart2 : (postDonationsPublic (postDonationsPublic db f today).1 f2 today2).1.participant =
      (postDonationsPublic db f today).1.participant := by
    rw [h2]
  have hDon2 : (postDonationsPublic (postDonationsPublic db f today).1 f2 today2).1.donation =
      (postDonationsPublic db f today).1.donation ++
        [⟨some db.nextParticipantId, 2, f2.amount, today2⟩] := by
    rw [h2]
    show (postDonationsPublic db f today).1.donation ++
        [(⟨some db.nextParticipantId,
          scopeMax (postDonationsPublic db f today).1 (some db.nextParticipantId) + 1,
          f2.amount, today2⟩ : Donation)] = _
    rw [hmax2]
  exact ⟨hPart1, rfl, hDon1, hPart2, hDon2⟩

/-- Witness for C5: Jane Doe donates 50 then 30 from "jane@x.com" into an
empty database; participant 1 is created once with role 'donor' and the two
donations are numbered 1 and 2. -/
theorem public_donation_find_or_create_witness :
    (postDonationsPublic emptyDB ⟨"Jane", "Doe", "jane@x.com", 50⟩ "2025-01-01").1.participant =
      emptyDB.participant ++ [newDonorRow emptyDB (jsTrim "Jane") (jsTrim "Doe")
        (jsToLower (jsTrim "jane@x.com"))] ∧
    (newDonorRow emptyDB (jsTrim "Jane") (jsTrim "Doe")
        (jsToLower (jsTrim "jane@x.com"))).participant_role = "donor" ∧
    (postDonationsPublic emptyDB ⟨"Jane", "Doe", "jane@x.com", 50⟩ "2025-01-01").1.donation =
      emptyDB.donation ++ [⟨some emptyDB.nextParticipantId, 1, 50, "2025-01-01"⟩] ∧
    (postDonationsPublic
        (postDonationsPublic emptyDB ⟨"Jane", "Doe", "jane@x.com", 50⟩ "2025-01-01").1
        ⟨"Jane", "Doe", "jane@x.com", 30⟩ "2025-01-02").1.participant =
      (postDonationsPublic emptyDB ⟨"Jane", "Doe", "jane@x.com", 50⟩ "2025-01-01").1.participant ∧
    (postDonationsPublic
        (postDonationsPublic emptyDB ⟨"Jane", "Doe", "jane@x.com", 50⟩ "2025-01-01").1
        ⟨"Jane", "Doe", "jane@x.com", 30⟩ "2025-01-02").1.donation =
      (postDonationsPublic emptyDB ⟨"Jane", "Doe", "jane@x.com", 50⟩ "2025-01-01").1.donation ++
        [⟨some emptyDB.nextParticipantId, 2, 30, "2025-01-02"⟩] :=
  public_donation_find_or_create emptyDB ⟨"Jane", "Doe", "jane@x.com", 50⟩
    ⟨"Jane", "Doe", "jane@x.com", 30⟩ "2025-01-01" "2025-01-02"
    (by decide) (by decide) (by decide) (by decide)
    (by decide) (by decide) (by decide) rfl
    (by decide) (by decide)

/-- JS `Number.prototype.toFixed(1)` on the exact mean, modelled as exact
decimal rounding to tenths (round half up). -/
def roundTo1 (q : ℚ) : ℚ := ((round (10 * q) : ℤ) : ℚ) / 10

/-- The `survey_response` rows with `question_number = 1`, in table order
(the `where` clause of the satisfaction aggregate). -/
def satisfactionRows (db : DB) : List SurveyResponse :=
  db.survey_response.filter (fun r => r.question_number == 1)

/-- The `avgSatisfaction` aggregate of `GET /` (app.js:255-318) and
`GET /impact` (app.js:396-450): `avg(question_response)` over
`question_number = 1` grouped by question number yields no row when no such
response exists and one row carrying the average otherwise;
`satisfactionResult[0]?.avg_satisfaction ? parseFloat(...).toFixed(1) : null`
therefore yields `null` exactly in the empty case — the pg driver returns
the SQL numeric as a non-empty (hence truthy) decimal string — and the
one-decimal rounding of the mean otherwise. -/
def avgSatisfaction (db : DB) : Option ℚ :=
  if satisfactionRows db = [] then none
  else
    some (roundTo1
      (((satisfactionRows db).map (fun r => (r.question_response : ℚ))).sum /
        (satisfactionRows db).length))

/-- C7: `avgSatisfaction` is `null` exactly when no SurveyResponse row with
question_number 1 exists (so the empty case yields `null`, never zero and
never an error), and otherwise it is the arithmetic mean of those rows'
`question_response` values rounded to one decimal place. -/
theorem avg_satisfaction_null_iff_empty (db : DB) :
    (avgSatisfaction db = none ↔ ∀ r ∈ db.survey_response, r.question_number ≠ 1) ∧
    (satisfactionRows db ≠ [] →
      avgSatisfaction db =
        some (roundTo1
          (((satisfactionRows db).map (fun r => (r.question_response : ℚ))).sum /
            (satisfactionRows db).length))) := by
  have hchar : satisfactionRows db = [] ↔ ∀ r ∈ db.survey_response, r.question_number ≠ 1 := by
    unfold satisfactionRows
    rw [List.filter_eq_nil_iff]
    constructor
    · intro h r hr
      have := h r hr
      simpa using this
    · intro h r hr
      simpa using h r hr
  constructor
  · constructor
    · intro hnone
      rw [← hchar]
      by_contra hne
      unfold avgSatisfaction at hnone
      rw [if_neg hne] at hnone
      exact Option.some_ne_none _ hnone
    · intro hall
      unfold avgSatisfaction
      rw [if_pos (hchar.mpr hall)]
  · intro hne
    unfold avgSatisfaction
    rw [if_neg hne]

/-- Concrete state for the C7 witness: three satisfaction responses 5, 4, 5
plus an unrelated question-2 response. -/
def c7DB : DB :=
  { emptyDB with survey_response := [⟨1, 1, 5⟩, ⟨1, 2, 4⟩, ⟨2, 1, 4⟩, ⟨3, 1, 5⟩] }

/-- Witness for C7: at `c7DB` the aggregate is the rounded mean of
`[5, 4, 5]`, namely `4.7`; with only a question-2 response present it is
`null`. -/
theorem avg_satisfaction_null_iff_empty_witness :
    satisfactionRows c7DB ≠ [] ∧
    avgSatisfaction c7DB =
      some (roundTo1
        (((satisfactionRows c7DB).map (fun r => (r.question_response : ℚ))).sum /
          (satisfactionRows c7DB).length)) ∧
    avgSatisfaction c7DB = some (47/10) ∧
    avgSatisfaction { emptyDB with survey_response := [⟨1, 2, 4⟩] } = none :=
  ⟨by decide,
   (avg_satisfaction_null_iff_empty c7DB).2 (by decide),
   by
     have h := (avg_satisfaction_null_iff_empty c7DB).2 (by decide)
     have hrows : satisfactionRows c7DB = [⟨1, 1, 5⟩, ⟨2, 1, 4⟩, ⟨3, 1, 5⟩] := by decide
     rw [h, hrows]
     norm_num [roundTo1, round_eq]
   ,
   (avg_satisfaction_null_iff_empty { emptyDB with survey_response := [⟨1, 2, 4⟩] }).1.mpr
     (by decide)⟩

/-! ## User listing and detail (`GET /users`, `GET /users/:id`) -/

/-- The projection selected by both user read routes:
`select('user_id', 'email', 'username', 'role')` — no password column. -/
structure UserView where
  id : Nat
  username : String
  email : Option String
  role : String
deriving DecidableEq, Repr

/-- The view-model mapping of the user routes (id/username/email/role). -/
def userView (u : User) : UserView := ⟨u.user_id, u.username, u.email, u.role⟩

/-- Lexicographic character-list order, modelling SQL `order by username`
ascending (defined structurally so concrete witnesses reduce in the
kernel). -/
def charListLe : List Char → List Char → Bool
  | [], _ => true
  | _ :: _, [] => false
  | a :: as, b :: bs =>
      if a.val < b.val then true
      else if b.val < a.val then false
      else charListLe as bs

/-- `order by username` comparator. -/
def usernameLe (a b : String) : Bool := charListLe a.data b.data

/-- Insertion step of the `orderBy('username')` sort. -/
def insertByUsername (u : User) : List User → List User
  | [] => [u]
  | v :: vs => if usernameLe u.username v.username then u :: v :: vs
               else v :: insertByUsername u vs

/-- `orderBy('username')` as an insertion sort over the table order. -/
def sortByUsername (l : List User) : List User := l.foldr insertByUsername []

/-- Does the second character list occur contiguously at the head of the
first?  (Structural helper for the substring matcher.) -/
def charsLeadWith : List Char → List Char → Bool
  | _, [] => true
  | [], _ :: _ => false
  | b :: bs, a :: as => a == b && charsLeadWith bs as

/-- Does `needle` occur contiguously anywhere in `hay`?  Models the SQL
pattern `'%needle%'`. -/
def charsContain : List Char → List Char → Bool
  | [], needle => charsLeadWith [] needle
  | h :: hs, needle => charsLeadWith (h :: hs) needle || charsContain hs needle

/-- The `ilike '%q%'` search predicate of `GET /users` (the route has
already lowercased `q`): case-insensitive substring match on username,
email or role; a NULL email matches nothing. -/
def userMatchesQuery (q : String) (u : User) : Bool :=
  charsContain (jsToLower u.username).data q.data ||
  (match u.email with
   | some e => charsContain (jsToLower e).data q.data
   | none => false) ||
  charsContain (jsToLower u.role).data q.data

/-- `GET /users` (app.js:628-657): lowercase the search term, filter when it
is truthy, order by username, and project each row to the
password-free view. -/
def getUsers (db : DB) (qRaw : String) : List UserView :=
  let q := jsToLower qRaw
  let filtered := if q ≠ "" then db.users.filter (userMatchesQuery q) else db.users
  (sortByUsername filtered).map userView

/-- `GET /users/:id` (app.js:696-718): `.first()` on the id, projected to
the password-free view (`none` = the not-found redirect). -/
def getUsersId (db : DB) (id : Nat) : Option UserView :=
  (db.users.find? (fun u => u.user_id == id)).map userView

/-- Erase the password column (the field the projection never selects). -/
def scrubPassword (u : User) : User := { u with password := "" }

lemma insertByUsername_map_scrub (u : User) (l : List User) :
    insertByUsername (scrubPassword u) (l.map scrubPassword) =
      (insertByUsername u l).map scrubPassword := by
  induction l with
  | nil => rfl
  | cons v vs ih =>
      show insertByUsername (scrubPassword u) (scrubPassword v :: vs.map scrubPassword) = _
      by_cases h : usernameLe u.username v.username
      · have h2 : usernameLe (scrubPassword u).username (scrubPassword v).username = true := h
        simp [insertByUsername, h2, h]
      · have h2 : ¬ (usernameLe (scrubPassword u).username (scrubPassword v).username = true) := h
        simp [insertByUsername, h2, h, ih]

lemma sortByUsername_map_scrub (l : List User) :
    sortByUsername (l.map scrubPassword) = (sortByUsername l).map scrubPassword := by
  induction l with
  | nil => rfl
  | cons v vs ih =>
      show insertByUsername (scrubPassword v) (sortByUsername (vs.map scrubPassword)) = _
      rw [ih]
      exact insertByUsername_map_scrub v (sortByUsername vs)

lemma userMatchesQuery_scrub (q : String) (u : User) :
    userMatchesQuery q (scrubPassword u) = userMatchesQuery q u := rfl

lemma userView_scrub (u : User) : userView (scrubPassword u) = userView u := rfl

lemma getUsers_eq_of_scrub_users {l l2 : List User} (q : String)
    (h : l.map scrubPassword = l2.map scrubPassword) :
    (sortByUsername (if jsToLower q ≠ "" then l.filter (userMatchesQuery (jsToLower q)) else l)).map userView =
    (sortByUsername (if jsToLower q ≠ "" then l2.filter (userMatchesQuery (jsToLower q)) else l2)).map userView := by
  have key : ∀ m : List User,
      (sortByUsername (if jsToLower q ≠ "" then m.filter (userMatchesQuery (jsToLower q)) else m)).map userView =
      (sortByUsername (if jsToLower q ≠ "" then (m.map scrubPassword).filter (userMatchesQuery (jsToLower q)) else m.map scrubPassword)).map userView := by
    intro m
    by_cases hq : jsToLower q ≠ ""
    · rw [if_pos hq, if_pos hq]
      rw [List.filter_map]
      have hpred : (userMatchesQuery (jsToLower q)) ∘ scrubPassword = userMatchesQuery (jsToLower q) := by
        funext u
        exact userMatchesQuery_scrub (jsToLower q) u
      rw [hpred, sortByUsername_map_scrub, List.map_map]
      have hview : userView ∘ scrubPassword = userView := by
        funext u
        exact userView_scrub u
      rw [hview]
    · rw [if_neg hq, if_neg hq, sortByUsername_map_scrub, List.map_map]
      have hview : userView ∘ scrubPassword = userView := by
        funext u
        exact userView_scrub u
      rw [hview]
  rw [key l, key l2, h]

/-- C8: the user list and user detail operations select only id, email,
username and role — never the stored password hash — so their output is
identical on any two database states whose user tables agree after erasing
the password column (in particular, states differing only in some user's
password hash). -/
theorem user_views_password_independent (db db2 : DB)
    (h : db.users.map scrubPassword = db2.users.map scrubPassword) :
    (∀ qRaw : String, getUsers db qRaw = getUsers db2 qRaw) ∧
    (∀ id : Nat, getUsersId db id = getUsersId db2 id) := by
  constructor
  · intro qRaw
    exact getUsers_eq_of_scrub_users qRaw h
  · intro id
    unfold getUsersId
    have key : ∀ m : List User,
        (m.find? (fun u => u.user_id == id)).map userView =
        ((m.map scrubPassword).find? (fun u => u.user_id == id)).map userView := by
      intro m
      rw [List.find?_map]
      have hpred : ((fun u => u.user_id == id) ∘ scrubPassword) = (fun u => u.user_id == id) := by
        funext u
        rfl
      rw [hpred, Option.map_map]
      have hview : userView ∘ scrubPassword = userView := by
        funext u
        rfl
      rw [hview]
    rw [key db.users, key db2.users, h]

/-- Two user tables differing only in user 1's stored hash. -/
def c8DB1 : DB :=
  { emptyDB with users := [⟨1, some "root@x.com", "root", "bcrypt$one", "admin"⟩,
      ⟨2, none, "alice", "bcrypt$two", "user"⟩] }

/-- Same as `c8DB1` with a different password hash for user 1. -/
def c8DB2 : DB :=
  { emptyDB with users := [⟨1, some "root@x.com", "root", "bcrypt$other", "admin"⟩,
      ⟨2, none, "alice", "bcrypt$two", "user"⟩] }

/-- Witness for C8: the two concrete states differing only in a password
hash render identical list output (for the empty and a nonempty search) and
identical detail output. -/
theorem user_views_password_independent_witness :
    getUsers c8DB1 "" = getUsers c8DB2 "" ∧
    getUsers c8DB1 "Ali" = getUsers c8DB2 "Ali" ∧
    getUsersId c8DB1 1 = getUsersId c8DB2 1 :=
  have h := user_views_password_independent c8DB1 c8DB2 (by decide)
  ⟨h.1 "", h.1 "Ali", h.2 1⟩

/-! ## User create/update (`POST /users`, `POST /users/:id`) -/

/-- Parsed form of the user create/update routes (`""` = missing/falsy). -/
structure UserForm where
  email : String
  username : String
  password : String
  role : String
deriving DecidableEq, Repr

/-- The row inserted by `POST /users` (app.js:679-684): `email || null`, the
submitted or default password hashed, and
`role: role === 'admin' ? 'admin' : 'user'`. -/
def newUserRow (db : DB) (f : UserForm) : User :=
  { user_id := db.nextUserId
    email := if f.email = "" then none else some f.email
    username := f.username
    password := if f.password ≠ "" then bcryptHash f.password else bcryptHash "password"
    role := if f.role = "admin" then "admin" else "user" }

/-- `POST /users` (app.js:667-694): reject a falsy username, otherwise
insert `newUserRow`. -/
def postUsers (db : DB) (f : UserForm) : DB × Response :=
  if f.username = "" then
    (db, ⟨"/users/new", .error "Username is required."⟩)
  else
    ({ db with users := db.users ++ [newUserRow db f], nextUserId := db.nextUserId + 1 },
     ⟨"/users", .success "User created."⟩)

/-- The update applied by `POST /users/:id` (app.js:754-764): email, raw
username and coerced role always; the password only when one was
submitted. -/
def updateUserRow (u : User) (f : UserForm) : User :=
  { u with
    email := if f.email = "" then none else some f.email
    username := f.username
    role := if f.role = "admin" then "admin" else "user"
    password := if f.password ≠ "" then bcryptHash f.password else u.password }

/-- `POST /users/:id` (app.js:748-773): 404 guard, then apply
`updateUserRow` to the matching row. -/
def postUsersId (db : DB) (id : Nat) (f : UserForm) : DB × Response :=
  if (db.users.find? (fun u => u.user_id == id)).isNone then
    (db, ⟨"/users", .error "User not found."⟩)
  else
    ({ db with users :=
                 db.users.map (fun u => if u.user_id = id then updateUserRow u f else u) },
     ⟨"/users", .success "User updated."⟩)

/-- Role-closure invariant of the `users` table. -/
def RolesValid (db : DB) : Prop :=
  ∀ u ∈ db.users, u.role = "admin" ∨ u.role = "user"

/-! ## C9 -/

/-- C9: the user create and update operations keep every stored role equal
to 'admin' or 'user' — any submitted role other than the exact string
'admin' (a missing value included) is stored as 'user', so no other role
value can enter the table through these operations. -/
theorem user_roles_closed (db : DB) (f : UserForm) (id : Nat)
    (hdb : RolesValid db) :
    RolesValid (postUsers db f).1 ∧
    RolesValid (postUsersId db id f).1 ∧
    (f.role ≠ "admin" →
      (∀ u ∈ (postUsers db f).1.users, u ∈ db.users ∨ u.role = "user") ∧
      (∀ u ∈ (postUsersId db id f).1.users, u ∈ db.users ∨ u.role = "user")) := by
  have hnewRole : (newUserRow db f).role = "admin" ∨ (newUserRow db f).role = "user" := by
    unfold newUserRow
    by_cases h : f.role = "admin"
    · left
      simp [h]
    · right
      simp [h]
  have hupdRole : ∀ u : User,
      (updateUserRow u f).role = "admin" ∨ (updateUserRow u f).role = "user" := by
    intro u
    unfold updateUserRow
    by_cases h : f.role = "admin"
    · left
      simp [h]
    · right
      simp [h]
  have hcreate : RolesValid (postUsers db f).1 := by
    unfold postUsers
    by_cases h : f.username = ""
    · rw [if_pos h]
      exact hdb
    · rw [if_neg h]
      intro u hu
      rcases List.mem_append.mp hu with hl | hr
      · exact hdb u hl
      · rw [List.mem_singleton.mp hr]
        exact hnewRole
  have hupdate : RolesValid (postUsersId db id f).1 := by
    unfold postUsersId
    by_cases h : (db.users.find? (fun u => u.user_id == id)).isNone = true
    · rw [if_pos h]
      exact hdb
    · rw [if_neg h]
      intro u hu
      rcases List.mem_map.mp hu with ⟨v, hv, hvu⟩
      by_cases hid : v.user_id = id
      · rw [if_pos hid] at hvu
        rw [← hvu]
        exact hupdRole v
      · rw [if_neg hid] at hvu
        rw [← hvu]
        exact hdb v hv
  refine ⟨hcreate, hupdate, ?_⟩
  intro hrole
  have hnewRoleU : (newUserRow db f).role = "user" := by
    unfold newUserRow
    simp [hrole]
  have hupdRoleU : ∀ u : User, (updateUserRow u f).role = "user" := by
    intro u
    unfold updateUserRow
    simp [hrole]
  constructor
  · unfold postUsers
    by_cases h : f.username = ""
    · rw [if_pos h]
      intro u hu
      exact Or.inl hu
    · rw [if_neg h]
      intro u hu
      rcases List.mem_append.mp hu with hl | hr
      · exact Or.inl hl
      · right
        rw [List.mem_singleton.mp hr]
        exact hnewRoleU
  · unfold postUsersId
    by_cases h : (db.users.find? (fun u => u.user_id == id)).isNone = true
    · rw [if_pos h]
      intro u hu
      exact Or.inl hu
    · rw [if_neg h]
      intro u hu
      rcases List.mem_map.mp hu with ⟨v, hv, hvu⟩
      by_cases hid : v.user_id = id
      · rw [if_pos hid] at hvu
        right
        rw [← hvu]
        exact hupdRoleU v
      · rw [if_neg hid] at hvu
        rw [← hvu]
        exact Or.inl hv

/-- Witness for C9: creating a user with the submitted role "manager" and
updating user 1 with the submitted role "" both keep the table closed under
{admin, user}, and both writes store role 'user'. -/
theorem user_roles_closed_witness :
    RolesValid (postUsers c8DB1 ⟨"", "eve", "", "manager"⟩).1 ∧
    RolesValid (postUsersId c8DB1 1 ⟨"", "root", "", ""⟩).1 ∧
    (∀ u ∈ (postUsers c8DB1 ⟨"", "eve", "", "manager"⟩).1.users,
      u ∈ c8DB1.users ∨ u.role = "user") :=
  have h1 := user_roles_closed c8DB1 ⟨"", "eve", "", "manager"⟩ 1
    (by unfold RolesValid; decide)
  have h2 := user_roles_closed c8DB1 ⟨"", "root", "", ""⟩ 1
    (by unfold RolesValid; decide)
  ⟨h1.1, h2.2.1, (h1.2.2 (by decide)).1⟩

end EllaRising
